import Mathlib

/-
Verification of the feature aggregation and imputation engine in
backend/services/fetch.py: provider clients, unit normalization, proxy
estimators, feature assembly with provenance, and the coordinate cache.

Numbers are modelled by rationals; Python round(x, n) is modelled by exact
decimal rounding with round-half-to-even tie breaking. Python dicts are
modelled by association lists in insertion order; optional values by Option.
-/

/-- Round half to even on rationals, the integer-level model of Python round. -/
def roundHalfEven (x : ℚ) : ℤ :=
  if x - ⌊x⌋ < 1/2 then ⌊x⌋
  else if 1/2 < x - ⌊x⌋ then ⌊x⌋ + 1
  else if 2 ∣ ⌊x⌋ then ⌊x⌋ else ⌊x⌋ + 1

/-- Decimal rounding to n places, modelling Python round(x, n). -/
def pyRound (n : ℕ) (x : ℚ) : ℚ := (roundHalfEven (x * 10 ^ n) : ℚ) / 10 ^ n

/-- Generic lookup in an association list, modelling dict.get(key). -/
def dictGet {κ α : Type} [DecidableEq κ] : List (κ × α) → κ → Option α
  | [], _ => none
  | (k, v) :: rest, key => if k = key then some v else dictGet rest key

/-- Character list pat begins character list s. -/
def charListLeads : List Char → List Char → Bool
  | [], _ => true
  | _ :: _, [] => false
  | a :: as, b :: bs => a = b && charListLeads as bs

/-- Character list pat occurs as a contiguous run inside s. -/
def charListHasSub (pat : List Char) : List Char → Bool
  | [] => charListLeads pat []
  | s@(_ :: rest) => charListLeads pat s || charListHasSub pat rest

/-- Substring test, modelling the Python expression pat in s. -/
def strContains (s pat : String) : Bool := charListHasSub pat.toList s.toList

/-- Lower casing, modelling str.lower() on the ASCII names used here. -/
def lowerStr (s : String) : String := String.mk (s.toList.map Char.toLower)

/-- FEATURE_NAMES from fetch.py: feature names matching the model, exact casing. -/
def FEATURE_NAMES : List String :=
  ["Slope", "Elevation", "Temperature", "Humidity",
   "Soil_TN", "Soil_TP", "Soil_AP", "Soil_AN",
   "Menhinick_Index", "Gleason_Index", "Disturbance_Level", "Fire_Risk_Index"]

/-- MEDIANS from fetch.py, the defaults table. The Python dict raises on a
missing key; the function is totalized with 0, which is never queried. -/
def MEDIANS : String → ℚ := fun k =>
  if k = "Slope" then 21.808936091032585
  else if k = "Elevation" then 1503.5730226128198
  else if k = "Temperature" then 21.754533316862897
  else if k = "Humidity" then 59.614943703539744
  else if k = "Soil_TN" then 0.5113024573782637
  else if k = "Soil_TP" then 0.24975360936595653
  else if k = "Soil_AP" then 0.24747083523271096
  else if k = "Soil_AN" then 0.24380308068303527
  else if k = "Menhinick_Index" then 1.7524116930921474
  else if k = "Gleason_Index" then 2.9693736440949037
  else if k = "Disturbance_Level" then 0.5230227736391104
  else if k = "Fire_Risk_Index" then 0.5164885287315552
  else 0

/-- Cache key of fetch.py: coordinates rounded to 3 decimal places. -/
def _cache_key (lat lon : ℚ) : ℚ × ℚ := (pyRound 3 lat, pyRound 3 lon)

/-- JSON values, the shape of a decoded provider response body. Numeric
leaves are rationals; float-convertible strings are outside this model. -/
inductive Json where
  | null
  | bool (b : Bool)
  | num (q : ℚ)
  | str (s : String)
  | arr (xs : List Json)
  | obj (kvs : List (String × Json))

/-- Python truthiness of a JSON value. -/
def pyTruthy : Json → Bool
  | .null => false
  | .bool b => b
  | .num q => decide (q ≠ 0)
  | .str s => !s.isEmpty
  | .arr xs => !xs.isEmpty
  | .obj kvs => !kvs.isEmpty

/-- Python expression x or d for an optional JSON value x. -/
def jor (o : Option Json) (d : Json) : Json :=
  match o with
  | some j => if pyTruthy j then j else d
  | none => d

/-- Python j.get(k): key lookup on a dict, raising on any other shape. -/
def pyGet : Json → String → Except Unit (Option Json)
  | .obj kvs, k => .ok (dictGet kvs k)
  | _, _ => .error ()

/-- Python j[0]: first element of a list, raising on other shapes. String
indexing, which Python would allow, is modelled as a failure since the
downstream float conversion of a character is outside the model. -/
def pyIndex0 : Json → Except Unit Json
  | .arr (x :: _) => .ok x
  | _ => .error ()

/-- Python float(v): numbers convert, booleans convert to 1 or 0, other
shapes raise. Numeric strings, which Python would parse, are modelled as
raising; no claim depends on string-typed numeric leaves. -/
def pyFloat : Json → Except Unit ℚ
  | .num q => .ok q
  | .bool b => .ok (if b then 1 else 0)
  | _ => .error ()

/-- Outcome of one HTTP call: fail covers transport errors, timeouts,
non-success statuses (raise_for_status) and bodies that are not JSON;
ok carries the decoded body. -/
inductive HttpResult where
  | fail
  | ok (body : Json)

/-- Body of _open_meteo after r.json(), as an exception-tracking parse:
daily max temperature preferred, current temperature as fallback, humidity
from current. -/
def open_meteo_parse (data : Json) : Except Unit (Option ℚ × Option ℚ) := do
  let daily := jor (← pyGet data "daily") (.obj [])
  let max_temps := jor (← pyGet daily "temperature_2m_max") (.arr [])
  let temp0 ← if pyTruthy max_temps then do
      let v ← pyIndex0 max_temps
      let t ← pyFloat v
      pure (some t)
    else pure (none : Option ℚ)
  let temp ← match temp0 with
    | some t => pure (some t)
    | none => do
        let cur := jor (← pyGet data "current") (.obj [])
        match ← pyGet cur "temperature_2m" with
        | some v => do
            let t ← pyFloat v
            pure (some t)
        | none => pure (none : Option ℚ)
  let cur := jor (← pyGet data "current") (.obj [])
  let humidity ← match ← pyGet cur "relative_humidity_2m" with
    | some v => do
        let h ← pyFloat v
        pure (some h)
    | none => pure (none : Option ℚ)
  pure (temp, humidity)

/-- The _open_meteo client: any exception, transport level or parse level,
is caught and converted to the all-absent pair. -/
def _open_meteo (r : HttpResult) : Option ℚ × Option ℚ :=
  match r with
  | .fail => (none, none)
  | .ok data =>
    match open_meteo_parse data with
    | .ok v => v
    | .error _ => (none, none)

/-- Body of _open_elevation after r.json(): first entry of results, with
elevation defaulting to 0 when the key is missing. -/
def open_elevation_parse (data : Json) : Except Unit (Option ℚ) := do
  let results := jor (← pyGet data "results") (.arr [])
  if pyTruthy results then do
    let r0 ← pyIndex0 results
    let v := (← pyGet r0 "elevation").getD (.num 0)
    let e ← pyFloat v
    pure (some e)
  else
    pure (none : Option ℚ)

/-- The _open_elevation client: any exception is caught and converted to
absence. -/
def _open_elevation (r : HttpResult) : Option ℚ :=
  match r with
  | .fail => none
  | .ok data =>
    match open_elevation_parse data with
    | .ok v => v
    | .error _ => none

/-- Values object of one SoilGrids depth: the mean and Q0.5 readings, each
possibly absent. Absent values dicts collapse to two absent readings. -/
structure DepthValues where
  mean : Option ℚ
  q05 : Option ℚ
deriving DecidableEq

/-- One SoilGrids layer: lookup name (absent name collapses to the empty
string) and the list of depths (absent depths collapse to the empty list). -/
structure SoilLayer where
  name : String
  depths : List DepthValues
deriving DecidableEq

/-- Python expression a or b on two optional numeric readings: a number 0
is falsy, so a present 0 falls through to b. -/
def pyOr (a b : Option ℚ) : Option ℚ :=
  match a with
  | some x => if x = 0 then b else some x
  | none => b

/-- Depth loop of _parse_soilgrids_response: collect values.get(mean) or
values.get(Q0.5) for each depth, keeping only non-None results. -/
def layerVals (l : SoilLayer) : List ℚ :=
  l.depths.filterMap (fun d => pyOr d.mean d.q05)

/-- The four soil nutrient slots of the out dict in fetch.py. -/
structure SoilOut where
  soil_tn : Option ℚ
  soil_tp : Option ℚ
  soil_ap : Option ℚ
  soil_an : Option ℚ
deriving DecidableEq

/-- Lookup soil.get(sk) for the four snake case nutrient keys. -/
def SoilOut.get (s : SoilOut) (k : String) : Option ℚ :=
  if k = "soil_tn" then s.soil_tn
  else if k = "soil_tp" then s.soil_tp
  else if k = "soil_ap" then s.soil_ap
  else if k = "soil_an" then s.soil_an
  else none

/-- Layer loop of _parse_soilgrids_response: nitrogen layers set soil_tn
and soil_an, organic carbon layers set soil_tp and soil_ap and record the
soc reading; layers without values are skipped. -/
def parseLayers : List SoilLayer → SoilOut × Option ℚ → SoilOut × Option ℚ
  | [], st => st
  | l :: rest, (out, soc) =>
    let name := lowerStr l.name
    let vals := layerVals l
    if vals.isEmpty then parseLayers rest (out, soc)
    else
      let mean_val := vals.sum / vals.length
      if strContains name "nitrogen" || strContains name "n_total" then
        let raw_g_kg := mean_val / 100
        let soil_tn := min 0.25 (max 0.01 (raw_g_kg * 0.12))
        parseLayers rest
          ({ out with soil_tn := some (pyRound 4 soil_tn),
                      soil_an := some (pyRound 4 (soil_tn * 0.033)) }, soc)
      else if strContains name "soc" || strContains name "organic_carbon" then
        let soc_g_kg := mean_val / 10
        let soil_p := min 1 (max 0.05 (soc_g_kg * 0.012))
        parseLayers rest
          ({ out with soil_tp := some (pyRound 4 soil_p),
                      soil_ap := some (pyRound 4 (soil_p * 0.95)) }, some soc_g_kg)
      else parseLayers rest (out, soc)

/-- _parse_soilgrids_response from fetch.py, on the structured form of the
properties.layers array: the layer loop followed by the organic carbon
fallback for nitrogen. -/
def _parse_soilgrids_response (layers : List SoilLayer) : SoilOut × Option ℚ :=
  let st := parseLayers layers (⟨none, none, none, none⟩, none)
  match st.1.soil_tn, st.2 with
  | none, some soc_g_kg =>
    if 0 < soc_g_kg then
      let soil_tn_proxy := min 0.25 (max 0.01 (soc_g_kg * 0.002))
      ({ st.1 with soil_tn := some (pyRound 4 soil_tn_proxy),
                   soil_an := some (pyRound 4 (soil_tn_proxy * 0.033)) }, st.2)
    else st
  | _, _ => st

/-- _climate_nitrogen_proxy from fetch.py: soil nitrogen estimated from
elevation, temperature and humidity, with medians substituted for absent
inputs and all inputs clamped. -/
def _climate_nitrogen_proxy (elevation temperature humidity : Option ℚ) : ℚ × ℚ :=
  let elev0 := elevation.getD (MEDIANS "Elevation")
  let temp0 := temperature.getD (MEDIANS "Temperature")
  let humid0 := humidity.getD (MEDIANS "Humidity")
  let elev := max 0 (min 5000 elev0)
  let temp := max (-20) (min 50 temp0)
  let humid := max 0 (min 100 humid0)
  let soil_tn0 := 0.08 + 0.003 * (temp - 15) + 0.001 * (humid - 50) - 0.00001 * elev
  let soil_tn := pyRound 4 (min 0.22 (max 0.01 soil_tn0))
  let soil_an := pyRound 4 (soil_tn * 0.033)
  (soil_tn, soil_an)

/-- _NITROGEN_BASELINE from fetch.py. -/
def _NITROGEN_BASELINE : ℚ := 0.51

/-- _NITROGEN_AMPLIFY from fetch.py. -/
def _NITROGEN_AMPLIFY : ℚ := 10

/-- _amplify_nitrogen from fetch.py: amplify small nitrogen differences
around the baseline, clamped to the display interval. -/
def _amplify_nitrogen (raw_tn : ℚ) : ℚ :=
  let diff := raw_tn - _NITROGEN_BASELINE
  let amplified := _NITROGEN_BASELINE + diff * _NITROGEN_AMPLIFY
  pyRound 4 (min 1 (max 0.1 amplified))

/-- _fire_risk_proxy from fetch.py. -/
def _fire_risk_proxy (temperature humidity : Option ℚ) : ℚ :=
  let temp := temperature.getD (MEDIANS "Temperature")
  let humid := humidity.getD (MEDIANS "Humidity")
  let h := max 0 (min 100 humid) / 100
  let t := max 0 (min 50 temp) / 40
  let raw := (1 - h) * min 1 t
  pyRound 4 (min 1 (max 0 raw))

/-- _model_feature_dict from fetch.py: the defaults dict overwritten by the
present provider values, the fire risk, and the present soil slots. -/
def _model_feature_dict (elevation temperature humidity : Option ℚ)
    (soil : SoilOut) (fire_risk : ℚ) : String → ℚ := fun k =>
  if k = "Elevation" then elevation.getD (MEDIANS "Elevation")
  else if k = "Temperature" then temperature.getD (MEDIANS "Temperature")
  else if k = "Humidity" then humidity.getD (MEDIANS "Humidity")
  else if k = "Fire_Risk_Index" then fire_risk
  else if k = "Soil_TN" then soil.soil_tn.getD (MEDIANS "Soil_TN")
  else if k = "Soil_TP" then soil.soil_tp.getD (MEDIANS "Soil_TP")
  else if k = "Soil_AP" then soil.soil_ap.getD (MEDIANS "Soil_AP")
  else if k = "Soil_AN" then soil.soil_an.getD (MEDIANS "Soil_AN")
  else MEDIANS k

/-- Loop body of _source_dict from fetch.py for one feature name. -/
def source_entry (elevation temperature humidity : Option ℚ)
    (soil : SoilOut) (climate_nitrogen : Bool) (k : String) : String × String :=
  if k = "Elevation" then
    ("elevation", if elevation.isSome then "api" else "default")
  else if k = "Temperature" then
    ("temperature", if temperature.isSome then "api" else "default")
  else if k = "Humidity" then
    ("humidity", if humidity.isSome then "api" else "default")
  else if k = "Soil_TN" ∨ k = "Soil_TP" ∨ k = "Soil_AP" ∨ k = "Soil_AN" then
    (lowerStr k,
      if climate_nitrogen && (k = "Soil_TN" || k = "Soil_AN") then "proxy"
      else if (soil.get (lowerStr k)).isSome then "api" else "default")
  else if k = "Fire_Risk_Index" then
    ("fire_risk_index", "proxy")
  else
    (lowerStr k, "default")

/-- _source_dict from fetch.py: the provenance tag of every feature name. -/
def _source_dict (elevation temperature humidity : Option ℚ)
    (soil : SoilOut) (climate_nitrogen : Bool) : List (String × String) :=
  FEATURE_NAMES.map (source_entry elevation temperature humidity soil climate_nitrogen)

/-- Joined results of the three provider clients for one aggregation, the
tuple produced by the gather call in fetch_features_for_point. -/
structure Outcome where
  temp : Option ℚ
  humidity : Option ℚ
  elevation : Option ℚ
  soil : SoilOut

/-- Response dict of fetch_features_for_point: the twelve snake case
feature entries in literal order, and the source map. -/
structure Response where
  feats : List (String × ℚ)
  source : List (String × String)
deriving DecidableEq

/-- Cache miss path of fetch_features_for_point: the climate nitrogen
fallback, the nitrogen ratio update, the fire risk proxy, the feature dict
and the source dict, assembled into the response dict. -/
def fetch_compute (o : Outcome) : Response :=
  let climate_nitrogen_used := o.soil.soil_tn.isNone
  let soil1 :=
    if climate_nitrogen_used then
      let p := _climate_nitrogen_proxy o.elevation o.temp o.humidity
      { o.soil with soil_tn := some p.1, soil_an := some p.2 }
    else o.soil
  let soil2 :=
    match soil1.soil_tn with
    | some tn => { soil1 with soil_an := some (pyRound 4 (tn * 0.033)) }
    | none => soil1
  let fire_risk := _fire_risk_proxy o.temp o.humidity
  let features := _model_feature_dict o.elevation o.temp o.humidity soil2 fire_risk
  { feats := [("elevation", features "Elevation"),
              ("temperature", features "Temperature"),
              ("humidity", features "Humidity"),
              ("soil_tn", features "Soil_TN"),
              ("soil_tp", features "Soil_TP"),
              ("soil_ap", features "Soil_AP"),
              ("soil_an", features "Soil_AN"),
              ("fire_risk_index", features "Fire_Risk_Index"),
              ("slope", features "Slope"),
              ("menhinick_index", features "Menhinick_Index"),
              ("gleason_index", features "Gleason_Index"),
              ("disturbance_level", features "Disturbance_Level")],
    source := _source_dict o.elevation o.temp o.humidity soil2 climate_nitrogen_used }

/-- The module level fetch cache, a dict keyed by rounded coordinates. -/
abbrev Cache := List ((ℚ × ℚ) × Response)

/-- fetch_features_for_point from fetch.py with the cache state passed
explicitly: cache lookup, on miss the computation for the provider results
of this call, then insertion. The lock serializes calls, so one call is one
atomic state transition. -/
def fetch_features_for_point (cache : Cache) (lat lon : ℚ) (o : Outcome) :
    Response × Cache :=
  match dictGet cache (_cache_key lat lon) with
  | some r => (r, cache)
  | none => (fetch_compute o, cache ++ [(_cache_key lat lon, fetch_compute o)])

/-- Bundle well-formedness of the claims: the feature entries carry exactly
the twelve fixed snake case names in response order, the source map carries
exactly the same twelve names, and every tag is api, proxy or default. -/
def BundleWF (r : Response) : Prop :=
  r.feats.map Prod.fst =
    ["elevation", "temperature", "humidity", "soil_tn", "soil_tp", "soil_ap",
     "soil_an", "fire_risk_index", "slope", "menhinick_index", "gleason_index",
     "disturbance_level"] ∧
  r.source.map Prod.fst =
    ["slope", "elevation", "temperature", "humidity", "soil_tn", "soil_tp",
     "soil_ap", "soil_an", "menhinick_index", "gleason_index",
     "disturbance_level", "fire_risk_index"] ∧
  ∀ p ∈ r.source, p.2 = "api" ∨ p.2 = "proxy" ∨ p.2 = "default"

/-- Notion of the provider supplying nitrogen directly, following the words
of the provenance claim: some nitrogen named layer of the response carries
at least one usable depth value. -/
def suppliedNitrogenDirectly (layers : List SoilLayer) : Bool :=
  layers.any fun l =>
    (strContains (lowerStr l.name) "nitrogen" || strContains (lowerStr l.name) "n_total")
      && !(layerVals l).isEmpty

/-- All providers absent: the worst case outcome. -/
def allAbsentOutcome : Outcome := ⟨none, none, none, ⟨none, none, none, none⟩⟩

/-- SoilGrids response carrying only an organic carbon layer with a mean
reading of 100 cg per kg. -/
def socOnlyLayers : List SoilLayer := [⟨"soc", [⟨some 100, none⟩]⟩]

/-- SoilGrids response carrying only an organic carbon layer with a mean
reading of 102.86, chosen so that the two rounding orders differ. -/
def socLayers286 : List SoilLayer := [⟨"soc", [⟨some 102.86, none⟩]⟩]

/-- SoilGrids response whose single nitrogen layer reports the reading 0 in
both the mean and the Q0.5 slot. -/
def zeroNitrogenLayers : List SoilLayer := [⟨"nitrogen", [⟨some 0, some 0⟩]⟩]

/-- Meteo payload that carries a daily section but no current section. -/
def meteoPartialPayload : Json :=
  .obj [("daily", .obj [("temperature_2m_max", .arr [.num 25])])]

theorem le_roundHalfEven (x : ℚ) : ⌊x⌋ ≤ roundHalfEven x := by
  unfold roundHalfEven
  split_ifs <;> omega

theorem roundHalfEven_le (x : ℚ) : roundHalfEven x ≤ ⌊x⌋ + 1 := by
  unfold roundHalfEven
  split_ifs <;> omega

theorem roundHalfEven_mono {x y : ℚ} (h : x ≤ y) :
    roundHalfEven x ≤ roundHalfEven y := by
  have hf : ⌊x⌋ ≤ ⌊y⌋ := Int.floor_mono h
  rcases eq_or_lt_of_le hf with heq | hlt
  · unfold roundHalfEven
    rw [← heq]
    split_ifs <;> first | omega | linarith
  · have h1 := roundHalfEven_le x
    have h2 := le_roundHalfEven y
    omega

theorem roundHalfEven_intCast (n : ℤ) : roundHalfEven (n : ℚ) = n := by
  unfold roundHalfEven
  rw [Int.floor_intCast]
  norm_num

theorem pyRound_mono (n : ℕ) {x y : ℚ} (h : x ≤ y) : pyRound n x ≤ pyRound n y := by
  unfold pyRound
  have h10 : (0:ℚ) < 10 ^ n := by positivity
  have hm : x * 10 ^ n ≤ y * 10 ^ n := by
    exact mul_le_mul_of_nonneg_right h (le_of_lt h10)
  have hr := roundHalfEven_mono hm
  have hc : ((roundHalfEven (x * 10 ^ n) : ℤ) : ℚ) ≤ (roundHalfEven (y * 10 ^ n) : ℚ) := by
    exact_mod_cast hr
  gcongr

theorem pyRound_nonneg (n : ℕ) {x : ℚ} (hx : 0 ≤ x) : 0 ≤ pyRound n x := by
  unfold pyRound
  have h10 : (0:ℚ) < 10 ^ n := by positivity
  have h00 : roundHalfEven (0 : ℚ) = 0 := by
    have := roundHalfEven_intCast 0
    simpa using this
  have h0 : (0:ℤ) ≤ roundHalfEven (x * 10 ^ n) := by
    have := roundHalfEven_mono (show (0:ℚ) ≤ x * 10 ^ n by positivity)
    rwa [h00] at this
  exact div_nonneg (by exact_mod_cast h0) (le_of_lt h10)

theorem pyRound_le_one (n : ℕ) {x : ℚ} (hx : x ≤ 1) : pyRound n x ≤ 1 := by
  unfold pyRound
  have h10 : (0:ℚ) < 10 ^ n := by positivity
  have h1 : roundHalfEven (x * 10 ^ n) ≤ 10 ^ n := by
    have hle : x * 10 ^ n ≤ ((10 ^ n : ℤ) : ℚ) := by
      push_cast
      nlinarith
    have := roundHalfEven_mono hle
    rwa [roundHalfEven_intCast] at this
  rw [div_le_one h10]
  exact_mod_cast h1

/-- C9 counterexample: the inputs 0.9 and 1.0 differ with positive sign,
yet the amplification transform maps both to the clamp ceiling 1.0, so the
output difference is 0 and the sign of the output difference does not match
the sign of the input difference. -/
theorem amplify_nitrogen_sign_counterexample :
    (0:ℚ) < 1 - 0.9 ∧ _amplify_nitrogen 1 - _amplify_nitrogen 0.9 = 0 := by
  constructor
  · norm_num
  · norm_num [_amplify_nitrogen, _NITROGEN_BASELINE, _NITROGEN_AMPLIFY, pyRound,
      roundHalfEven, min_def, max_def]

/-- C9 amended: the amplification transform never reverses order: for raw
inputs a less than b, the output at a is at most the output at b. Because
of the clamp to the display interval and the 4 decimal rounding, the output
difference can be zero for distinct inputs, so strict sign preservation
fails; weak monotonicity is what holds. -/
theorem amplify_nitrogen_monotone {a b : ℚ} (h : a < b) :
    _amplify_nitrogen a ≤ _amplify_nitrogen b := by
  unfold _amplify_nitrogen
  apply pyRound_mono
  have h1 : _NITROGEN_BASELINE + (a - _NITROGEN_BASELINE) * _NITROGEN_AMPLIFY ≤
      _NITROGEN_BASELINE + (b - _NITROGEN_BASELINE) * _NITROGEN_AMPLIFY := by
    unfold _NITROGEN_BASELINE _NITROGEN_AMPLIFY
    linarith
  exact min_le_min le_rfl (max_le_max le_rfl h1)

theorem amplify_nitrogen_monotone_witness :
    _amplify_nitrogen 0.4 ≤ _amplify_nitrogen 0.5 :=
  amplify_nitrogen_monotone (by norm_num)

/-- C6: the fire risk proxy equals the claimed formula, the product of
1 minus clamped humidity over 100 and the minimum of 1 and clamped
temperature over 40, with medians substituted for absent inputs; the final
clamp in the code is the identity on this product, and the rounded result
lies in the unit interval for every input, extreme values included. -/
theorem fire_risk_proxy_formula_and_bounds (temperature humidity : Option ℚ) :
    _fire_risk_proxy temperature humidity =
      pyRound 4 ((1 - max 0 (min 100 (humidity.getD (MEDIANS "Humidity"))) / 100) *
        min 1 (max 0 (min 50 (temperature.getD (MEDIANS "Temperature"))) / 40)) ∧
    0 ≤ _fire_risk_proxy temperature humidity ∧
    _fire_risk_proxy temperature humidity ≤ 1 := by
  have hh1 : (0:ℚ) ≤ max 0 (min 100 (humidity.getD (MEDIANS "Humidity"))) / 100 := by
    positivity
  have hh2 : max 0 (min 100 (humidity.getD (MEDIANS "Humidity"))) / 100 ≤ 1 := by
    rw [div_le_one (by norm_num)]
    exact max_le (by norm_num) (min_le_left _ _)
  have ht1 : (0:ℚ) ≤ max 0 (min 50 (temperature.getD (MEDIANS "Temperature"))) / 40 := by
    positivity
  have hm1 : min 1 (max 0 (min 50 (temperature.getD (MEDIANS "Temperature"))) / 40) ≤ 1 :=
    min_le_left _ _
  have hm0 : (0:ℚ) ≤ min 1 (max 0 (min 50 (temperature.getD (MEDIANS "Temperature"))) / 40) :=
    le_min (by norm_num) ht1
  have hraw0 : (0:ℚ) ≤ (1 - max 0 (min 100 (humidity.getD (MEDIANS "Humidity"))) / 100) *
      min 1 (max 0 (min 50 (temperature.getD (MEDIANS "Temperature"))) / 40) :=
    mul_nonneg (by linarith) hm0
  have hraw1 : (1 - max 0 (min 100 (humidity.getD (MEDIANS "Humidity"))) / 100) *
      min 1 (max 0 (min 50 (temperature.getD (MEDIANS "Temperature"))) / 40) ≤ 1 :=
    mul_le_one₀ (by linarith) hm0 hm1
  have heq : _fire_risk_proxy temperature humidity =
      pyRound 4 ((1 - max 0 (min 100 (humidity.getD (MEDIANS "Humidity"))) / 100) *
        min 1 (max 0 (min 50 (temperature.getD (MEDIANS "Temperature"))) / 40)) := by
    unfold _fire_risk_proxy
    dsimp only
    rw [max_eq_right hraw0, min_eq_right hraw1]
  refine ⟨heq, ?_, ?_⟩
  · rw [heq]
    exact pyRound_nonneg 4 hraw0
  · rw [heq]
    exact pyRound_le_one 4 hraw1

theorem dictGet_nil {κ α : Type} [DecidableEq κ] (k : κ) :
    dictGet ([] : List (κ × α)) k = none := rfl

theorem dictGet_cons {κ α : Type} [DecidableEq κ] (a : κ) (v : α)
    (l : List (κ × α)) (k : κ) :
    dictGet ((a, v) :: l) k = if a = k then some v else dictGet l k := rfl

theorem dictGet_mem {κ α : Type} [DecidableEq κ] (l : List (κ × α)) (k : κ) (v : α)
    (h : dictGet l k = some v) : ∃ e ∈ l, e.2 = v := by
  induction l with
  | nil => simp [dictGet_nil] at h
  | cons a rest ih =>
    obtain ⟨k1, v1⟩ := a
    rw [dictGet_cons] at h
    by_cases hk : k1 = k
    · rw [if_pos hk] at h
      exact ⟨(k1, v1), List.mem_cons_self _ _, by simpa using h⟩
    · rw [if_neg hk] at h
      obtain ⟨e, he, hev⟩ := ih h
      exact ⟨e, List.mem_cons_of_mem _ he, hev⟩

theorem dictGet_append_none {κ α : Type} [DecidableEq κ] (l : List (κ × α))
    (k : κ) (v : α) (h : dictGet l k = none) :
    dictGet (l ++ [(k, v)]) k = some v := by
  induction l with
  | nil => simp [dictGet_cons, dictGet_nil]
  | cons a rest ih =>
    obtain ⟨k1, v1⟩ := a
    rw [dictGet_cons] at h
    by_cases hk : k1 = k
    · rw [if_pos hk] at h
      simp at h
    · rw [if_neg hk] at h
      rw [List.cons_append, dictGet_cons, if_neg hk]
      exact ih h

theorem source_entry_tag (e t h : Option ℚ) (s : SoilOut) (c : Bool) (k : String) :
    (source_entry e t h s c k).2 = "api" ∨ (source_entry e t h s c k).2 = "proxy" ∨
    (source_entry e t h s c k).2 = "default" := by
  unfold source_entry
  split_ifs <;> simp

theorem source_dict_tags (e t h : Option ℚ) (s : SoilOut) (c : Bool) :
    ∀ p ∈ _source_dict e t h s c, p.2 = "api" ∨ p.2 = "proxy" ∨ p.2 = "default" := by
  intro p hp
  unfold _source_dict at hp
  obtain ⟨k, _, rfl⟩ := List.mem_map.mp hp
  exact source_entry_tag e t h s c k

theorem bundleWF_fetch_compute (o : Outcome) : BundleWF (fetch_compute o) := by
  refine ⟨rfl, rfl, ?_⟩
  intro p hp
  exact source_dict_tags _ _ _ _ _ p hp

/-- C1: for every cache state reachable from computed bundles and every
coordinate pair, the returned bundle carries exactly the twelve fixed
feature names, each with a numeric value, and a source map assigning each
of those names exactly one tag among api, proxy and default; the cache
after the call again holds only computed bundles. -/
theorem fetch_bundle_complete_schema (cache : Cache) (lat lon : ℚ) (o : Outcome)
    (hwf : ∀ e ∈ cache, ∃ oc, e.2 = fetch_compute oc) :
    BundleWF (fetch_features_for_point cache lat lon o).1 ∧
    ∀ e ∈ (fetch_features_for_point cache lat lon o).2, ∃ oc, e.2 = fetch_compute oc := by
  unfold fetch_features_for_point
  cases hc : dictGet cache (_cache_key lat lon) with
  | some r =>
    refine ⟨?_, hwf⟩
    obtain ⟨e, he, hev⟩ := dictGet_mem cache _ r hc
    obtain ⟨oc, hoc⟩ := hwf e he
    rw [show r = fetch_compute oc by rw [← hev, hoc]]
    exact bundleWF_fetch_compute oc
  | none =>
    refine ⟨bundleWF_fetch_compute o, ?_⟩
    intro e he
    rcases List.mem_append.mp he with h1 | h2
    · exact hwf e h1
    · simp at h2
      exact ⟨o, by rw [h2]⟩

theorem fetch_bundle_complete_schema_witness :
    BundleWF (fetch_features_for_point [] 0 0 allAbsentOutcome).1 ∧
    ∀ e ∈ (fetch_features_for_point [] 0 0 allAbsentOutcome).2,
      ∃ oc, e.2 = fetch_compute oc :=
  fetch_bundle_complete_schema [] 0 0 allAbsentOutcome (by simp)

/-- C7: in every computed bundle the available nitrogen entry equals the
primary nitrogen entry times 0.033, rounded to 4 decimals, whatever source
determined the primary value: the aggregation recomputes the ratio from the
final primary nitrogen before assembling the response. -/
theorem soil_an_ratio_invariant (o : Outcome) :
    ∃ tn, dictGet (fetch_compute o).feats "soil_tn" = some tn ∧
      dictGet (fetch_compute o).feats "soil_an" = some (pyRound 4 (tn * 0.033)) := by
  obtain ⟨t, h, e, s⟩ := o
  obtain ⟨tn0, tp0, ap0, an0⟩ := s
  cases tn0 with
  | none => exact ⟨(_climate_nitrogen_proxy e t h).1, rfl, rfl⟩
  | some tn => exact ⟨tn, rfl, rfl⟩

theorem soil_tag_general (t h e : Option ℚ) (s : SoilOut) :
    dictGet (fetch_compute ⟨t, h, e, s⟩).source "soil_tn" =
      some (if s.soil_tn.isSome then "api" else "proxy") ∧
    dictGet (fetch_compute ⟨t, h, e, s⟩).source "soil_an" =
      some (if s.soil_tn.isSome then "api" else "proxy") := by
  obtain ⟨tn0, tp0, ap0, an0⟩ := s
  cases tn0 with
  | none => exact ⟨rfl, rfl⟩
  | some tn => exact ⟨rfl, rfl⟩

/-- C5 amended: the provenance tag of primary nitrogen is api exactly when
the soil parsing stage produced a nitrogen value, whether from a nitrogen
layer directly or from its internal organic carbon fallback; only when the
parser yields no nitrogen at all are primary and secondary nitrogen tagged
proxy, via the climate proxy. A nitrogen value derived inside the parser
from organic carbon is therefore tagged api even though the provider did
not supply nitrogen directly. -/
theorem soil_nitrogen_tag_spec (temp humidity elevation : Option ℚ)
    (layers : List SoilLayer) :
    dictGet (fetch_compute ⟨temp, humidity, elevation,
        (_parse_soilgrids_response layers).1⟩).source "soil_tn" =
      some (if (_parse_soilgrids_response layers).1.soil_tn.isSome
        then "api" else "proxy") ∧
    dictGet (fetch_compute ⟨temp, humidity, elevation,
        (_parse_soilgrids_response layers).1⟩).source "soil_an" =
      some (if (_parse_soilgrids_response layers).1.soil_tn.isSome
        then "api" else "proxy") :=
  soil_tag_general temp humidity elevation ((_parse_soilgrids_response layers).1)

theorem socName_facts :
    (strContains (lowerStr "soc") "nitrogen" || strContains (lowerStr "soc") "n_total")
      = false ∧
    (strContains (lowerStr "soc") "soc" || strContains (lowerStr "soc") "organic_carbon")
      = true := by
  decide

theorem nitrogenName_facts :
    (strContains (lowerStr "nitrogen") "nitrogen"
      || strContains (lowerStr "nitrogen") "n_total") = true := by
  decide

theorem layerVals_socOnly : layerVals ⟨"soc", [⟨some 100, none⟩]⟩ = [100] := by
  norm_num [layerVals, pyOr, List.filterMap_cons]

theorem parse_socOnlyLayers_eq :
    _parse_soilgrids_response socOnlyLayers =
      (⟨some 0.02, some 0.12, some 0.114, some 0.0007⟩, some 10) := by
  norm_num [_parse_soilgrids_response, socOnlyLayers, parseLayers, layerVals_socOnly,
    socName_facts.1, socName_facts.2, pyRound, roundHalfEven, min_def, max_def]

theorem fetch_feats_tp_ap (t h e : Option ℚ) (s : SoilOut) :
    dictGet (fetch_compute ⟨t, h, e, s⟩).feats "soil_tp" =
      some (s.soil_tp.getD (MEDIANS "Soil_TP")) ∧
    dictGet (fetch_compute ⟨t, h, e, s⟩).feats "soil_ap" =
      some (s.soil_ap.getD (MEDIANS "Soil_AP")) := by
  obtain ⟨tn0, tp0, ap0, an0⟩ := s
  cases tn0 with
  | none => exact ⟨rfl, rfl⟩
  | some tn => exact ⟨rfl, rfl⟩

theorem layerVals_soc286 : layerVals ⟨"soc", [⟨some 102.86, none⟩]⟩ = [102.86] := by
  norm_num [layerVals, pyOr, List.filterMap_cons]

theorem parse_socLayers286_eq :
    _parse_soilgrids_response socLayers286 =
      (⟨some 0.0206, some 0.1234, some 0.1173, some 0.0007⟩, some 10.286) := by
  rw [show socLayers286 = [⟨"soc", [⟨some 102.86, none⟩]⟩] from rfl]
  simp only [_parse_soilgrids_response, parseLayers, layerVals_soc286]
  norm_num [socName_facts.1, socName_facts.2, pyRound, roundHalfEven, min_def, max_def]

/-- C5 counterexample: a SoilGrids response that carries only an organic
carbon layer supplies no nitrogen directly, yet the parser derives nitrogen
from organic carbon, so the aggregation tags primary nitrogen api rather
than proxy. -/
theorem soil_tn_api_tag_counterexample :
    suppliedNitrogenDirectly socOnlyLayers = false ∧
    dictGet (fetch_compute ⟨none, none, none,
        (_parse_soilgrids_response socOnlyLayers).1⟩).source "soil_tn" = some "api" := by
  constructor
  · norm_num [suppliedNitrogenDirectly, socOnlyLayers, List.any_cons, List.any_nil,
      socName_facts.1, layerVals_socOnly]
  · rw [(soil_tag_general none none none _).1]
    simp [parse_socOnlyLayers_eq]

/-- C8 counterexample: for an organic carbon reading whose derived primary
value is 0.123432, the bundle carries soil_tp 0.1234 and soil_ap 0.1173,
while rounding the bundled soil_tp times 0.95 gives 0.1172: the secondary
value is computed from the primary before its own rounding, so the claimed
identity on bundled values fails. -/
theorem soil_ap_rounding_counterexample :
    dictGet (fetch_compute ⟨none, none, none,
        (_parse_soilgrids_response socLayers286).1⟩).feats "soil_tp" = some 0.1234 ∧
    dictGet (fetch_compute ⟨none, none, none,
        (_parse_soilgrids_response socLayers286).1⟩).feats "soil_ap" = some 0.1173 ∧
    pyRound 4 ((0.1234 : ℚ) * 0.95) = 0.1172 ∧ ((0.1173 : ℚ) ≠ 0.1172) := by
  refine ⟨?_, ?_, ?_, by norm_num⟩
  · rw [(fetch_feats_tp_ap none none none _).1]
    simp [parse_socLayers286_eq]
  · rw [(fetch_feats_tp_ap none none none _).2]
    simp [parse_socLayers286_eq]
  · norm_num [pyRound, roundHalfEven]

theorem parseLayers_tp_ap_inv (layers : List SoilLayer) :
    ∀ (out : SoilOut) (soc : Option ℚ),
      (∀ tp, out.soil_tp = some tp →
        ∃ p, tp = pyRound 4 p ∧ out.soil_ap = some (pyRound 4 (p * 0.95))) →
      ∀ tp, (parseLayers layers (out, soc)).1.soil_tp = some tp →
        ∃ p, tp = pyRound 4 p ∧
          (parseLayers layers (out, soc)).1.soil_ap = some (pyRound 4 (p * 0.95)) := by
  induction layers with
  | nil =>
    intro out soc hst
    simpa [parseLayers] using hst
  | cons l rest ih =>
    intro out soc hst
    rw [parseLayers]
    dsimp only
    split_ifs with h1 h2 h3
    · exact ih out soc hst
    · exact ih _ soc hst
    · refine ih _ _ ?_
      intro tp htp
      exact ⟨_, (Option.some.inj htp).symm, rfl⟩
    · exact ih out soc hst

/-- C8 amended: whenever the parser determines the phosphorus family via
the organic carbon proxy, the bundled primary is the clamped derived value
p rounded to 4 decimals and the bundled secondary equals p times 0.95
rounded to 4 decimals, with the ratio applied to p before its rounding;
because decimal rounding does not commute with the ratio, the secondary can
differ from the rounded product of the bundled primary with 0.95. -/
theorem soil_ap_ratio_pre_rounding (layers : List SoilLayer) (tp : ℚ)
    (h : (_parse_soilgrids_response layers).1.soil_tp = some tp) :
    ∃ p, tp = pyRound 4 p ∧
      (_parse_soilgrids_response layers).1.soil_ap = some (pyRound 4 (p * 0.95)) := by
  have base : ∀ tp0, (⟨none, none, none, none⟩ : SoilOut).soil_tp = some tp0 →
      ∃ p, tp0 = pyRound 4 p ∧
        (⟨none, none, none, none⟩ : SoilOut).soil_ap = some (pyRound 4 (p * 0.95)) := by
    intro tp0 h0
    simp at h0
  have main := parseLayers_tp_ap_inv layers ⟨none, none, none, none⟩ none base
  unfold _parse_soilgrids_response at h ⊢
  rcases h1 : (parseLayers layers (⟨none, none, none, none⟩, none)).1.soil_tn
    with _ | tn <;>
  rcases h2 : (parseLayers layers (⟨none, none, none, none⟩, none)).2
    with _ | soc <;>
  simp only [h1, h2] at h ⊢
  · exact main tp h
  · split_ifs at h ⊢ with hpos
    · exact main tp h
    · exact main tp h
  · exact main tp h
  · exact main tp h

theorem soil_ap_ratio_pre_rounding_witness :
    ∃ p, (0.1234 : ℚ) = pyRound 4 p ∧
      (_parse_soilgrids_response socLayers286).1.soil_ap = some (pyRound 4 (p * 0.95)) :=
  soil_ap_ratio_pre_rounding socLayers286 0.1234 (by simp [parse_socLayers286_eq])

theorem parseLayers_skip (layers : List SoilLayer) :
    ∀ st : SoilOut × Option ℚ, (∀ l ∈ layers, layerVals l = []) →
      parseLayers layers st = st := by
  induction layers with
  | nil =>
    intro st _
    rfl
  | cons l rest ih =>
    intro st h
    obtain ⟨out, soc⟩ := st
    rw [parseLayers]
    dsimp only
    rw [h l (List.mem_cons_self _ _)]
    simp only [List.isEmpty_nil, if_true]
    exact ih _ (fun l' hl' => h l' (List.mem_cons_of_mem _ hl'))

/-- C10 amended: a layer in which every depth reports a mean of 0, or no
mean at all, and carries no Q0.5 entry contributes no values, because the
or chained lookup treats a 0 mean as missing and the absent Q0.5 yields
None, which the final None check discards; a whole response of such layers
parses to all absent nutrients, which then fall to the proxy and default
path. A present Q0.5 reading of 0 is kept, however, since only None is
discarded after the or chain. -/
theorem zero_mean_absent_q05_no_values (layers : List SoilLayer)
    (h : ∀ l ∈ layers, ∀ d ∈ l.depths, (d.mean = none ∨ d.mean = some 0) ∧ d.q05 = none) :
    _parse_soilgrids_response layers = (⟨none, none, none, none⟩, none) := by
  have hvals : ∀ l ∈ layers, layerVals l = [] := by
    intro l hl
    unfold layerVals
    rw [List.filterMap_eq_nil_iff]
    intro d hd
    obtain ⟨hm, hq⟩ := h l hl d hd
    rcases hm with hm | hm <;> simp [pyOr, hm, hq]
  have hskip := parseLayers_skip layers (⟨none, none, none, none⟩, none) hvals
  simp [_parse_soilgrids_response, hskip]

theorem zero_mean_absent_q05_no_values_witness :
    _parse_soilgrids_response [⟨"nitrogen", [⟨some 0, none⟩]⟩] =
      (⟨none, none, none, none⟩, none) :=
  zero_mean_absent_q05_no_values _ (by simp)

theorem layerVals_zeroNitrogen : layerVals ⟨"nitrogen", [⟨some 0, some 0⟩]⟩ = [0] := by
  norm_num [layerVals, pyOr, List.filterMap_cons]

theorem parse_zeroNitrogen_eq :
    _parse_soilgrids_response zeroNitrogenLayers =
      (⟨some 0.01, none, none, some 0.0003⟩, none) := by
  norm_num [_parse_soilgrids_response, zeroNitrogenLayers, parseLayers,
    layerVals_zeroNitrogen, nitrogenName_facts, pyRound, roundHalfEven,
    min_def, max_def]

/-- C10 counterexample: a nitrogen layer whose single depth reports 0 in
both the mean and the Q0.5 slot is not treated as valueless: the or chain
falls through the falsy 0 mean to the Q0.5 value 0, which passes the None
check, so the layer contributes the value 0, the parser produces the
clamped concrete nitrogen 0.01, and the aggregation tags it api. -/
theorem zero_soil_reading_counterexample :
    layerVals ⟨"nitrogen", [⟨some 0, some 0⟩]⟩ = [0] ∧
    (_parse_soilgrids_response zeroNitrogenLayers).1.soil_tn = some 0.01 ∧
    dictGet (fetch_compute ⟨none, none, none,
        (_parse_soilgrids_response zeroNitrogenLayers).1⟩).source "soil_tn" =
      some "api" := by
  refine ⟨layerVals_zeroNitrogen, ?_, ?_⟩
  · simp [parse_zeroNitrogen_eq]
  · rw [(soil_tag_general none none none _).1]
    simp [parse_zeroNitrogen_eq]

/-- C2: two successive calls whose coordinates round to the same 3 decimal
cell share one cache entry: after the first call the entry under the common
key holds the first bundle, and the second call returns a bundle equal to
the first one, whatever its own provider results would have been. -/
theorem fetch_cache_idempotent (cache : Cache) (lat1 lon1 lat2 lon2 : ℚ)
    (o1 o2 : Outcome) (hkey : _cache_key lat1 lon1 = _cache_key lat2 lon2) :
    dictGet (fetch_features_for_point cache lat1 lon1 o1).2 (_cache_key lat2 lon2) =
      some (fetch_features_for_point cache lat1 lon1 o1).1 ∧
    (fetch_features_for_point (fetch_features_for_point cache lat1 lon1 o1).2
        lat2 lon2 o2).1 = (fetch_features_for_point cache lat1 lon1 o1).1 := by
  unfold fetch_features_for_point
  rw [← hkey]
  cases hc : dictGet cache (_cache_key lat1 lon1) with
  | some r => simp [hc]
  | none =>
    have hins := dictGet_append_none cache (_cache_key lat1 lon1) (fetch_compute o1) hc
    simp [hc, hins]

theorem fetch_cache_idempotent_witness :
    dictGet (fetch_features_for_point [] 10.0001 20.0001 allAbsentOutcome).2
        (_cache_key 10.0004 20.0002) =
      some (fetch_features_for_point [] 10.0001 20.0001 allAbsentOutcome).1 ∧
    (fetch_features_for_point
        (fetch_features_for_point [] 10.0001 20.0001 allAbsentOutcome).2
        10.0004 20.0002 allAbsentOutcome).1 =
      (fetch_features_for_point [] 10.0001 20.0001 allAbsentOutcome).1 :=
  fetch_cache_idempotent [] 10.0001 20.0001 10.0004 20.0002
    allAbsentOutcome allAbsentOutcome
    (by norm_num [_cache_key, pyRound, roundHalfEven])

/-- C4: when every provider is absent, the returned bundle carries the
median default for every feature except the fire risk index, which is the
proxy formula applied to the defaulted inputs, and the nitrogen pair, which
is the climate nitrogen proxy applied to the defaulted inputs; the source
map tags the nitrogen pair and the fire risk proxy and every other feature
default, and the call returns normally. -/
theorem all_absent_fallback_defaults (lat lon : ℚ) :
    (fetch_features_for_point [] lat lon allAbsentOutcome).1.feats =
      [("elevation", MEDIANS "Elevation"), ("temperature", MEDIANS "Temperature"),
       ("humidity", MEDIANS "Humidity"),
       ("soil_tn", (_climate_nitrogen_proxy none none none).1),
       ("soil_tp", MEDIANS "Soil_TP"), ("soil_ap", MEDIANS "Soil_AP"),
       ("soil_an", (_climate_nitrogen_proxy none none none).2),
       ("fire_risk_index", _fire_risk_proxy none none),
       ("slope", MEDIANS "Slope"), ("menhinick_index", MEDIANS "Menhinick_Index"),
       ("gleason_index", MEDIANS "Gleason_Index"),
       ("disturbance_level", MEDIANS "Disturbance_Level")] ∧
    (fetch_features_for_point [] lat lon allAbsentOutcome).1.source =
      [("slope", "default"), ("elevation", "default"), ("temperature", "default"),
       ("humidity", "default"), ("soil_tn", "proxy"), ("soil_tp", "default"),
       ("soil_ap", "default"), ("soil_an", "proxy"), ("menhinick_index", "default"),
       ("gleason_index", "default"), ("disturbance_level", "default"),
       ("fire_risk_index", "proxy")] :=
  ⟨rfl, rfl⟩

/-- C3 counterexample: a payload that carries a well formed daily section
but omits the current section parses without any exception to a concrete
temperature and an absent humidity: a shape deviating response is not
treated as total absence of both requested fields. -/
theorem open_meteo_partial_parse_counterexample :
    _open_meteo (.ok meteoPartialPayload) = (some 25, none) ∧
    (some (25:ℚ) ≠ (none : Option ℚ)) := by
  constructor
  · rfl
  · simp

/-- C3 amended: the clients never raise: a transport error, timeout,
non-success status or undecodable body yields the all-absent result, and
any exception inside field extraction is caught and also yields the all
absent result; fields are otherwise extracted by independent optional
lookups, so a payload that merely omits one section yields absence only
for the affected field and can still carry a concrete value for another. -/
theorem provider_clients_fail_soft (data : Json) :
    _open_meteo .fail = (none, none) ∧
    _open_elevation .fail = none ∧
    (open_meteo_parse data = .error () → _open_meteo (.ok data) = (none, none)) ∧
    (open_elevation_parse data = .error () → _open_elevation (.ok data) = none) := by
  refine ⟨rfl, rfl, ?_, ?_⟩ <;> intro h <;> simp [_open_meteo, _open_elevation, h]

theorem provider_clients_fail_soft_witness :
    _open_meteo (.ok (.num 5)) = (none, none) ∧
    _open_elevation (.ok (.num 5)) = none :=
  ⟨(provider_clients_fail_soft (.num 5)).2.2.1 rfl,
   (provider_clients_fail_soft (.num 5)).2.2.2 rfl⟩
